import Mathlib

/-!
Shallow embedding of the aiogram_dialog navigation core:
`manager/manager.py` (ManagerImpl) and `manager/sub_manager.py` (SubManager),
together with the data entities (Stack, Context, ShowMode, StartMode,
LaunchMode) they operate on.  Entities that are declared outside the
available sources are modelled from the specification and marked as such.
-/

namespace AiogramDialog

/-- Modelled from the spec: delivery strategies (`ShowMode` entity is not under src). -/
inductive ShowMode where
  | auto
  | send
  | edit
  | delete_and_send
  | no_update
deriving DecidableEq

/-- Modelled from the spec: launch-mode policy of a dialog (`LaunchMode` entity is not under src). -/
inductive LaunchMode where
  | normal
  | single_top
  | exclusive
  | root
deriving DecidableEq

/-- Modelled from the spec: start modes; `other` stands for any value passed by a
caller that is none of the three known members ("any other mode: fails with an
invalid-argument condition"). The `StartMode` entity is not under src. -/
inductive StartMode where
  | normal
  | reset_stack
  | new_stack
  | other
deriving DecidableEq

/-- Modelled from the spec: the reserved identifier denoting the default stack
(`DEFAULT_STACK_ID` is imported from the entities module, which is not under src). -/
def DEFAULT_STACK_ID : String := ""

/-- One dialog state: an opaque (state-group, state-name) pair. -/
structure DState where
  group : String
  name : String
deriving DecidableEq

/-- The triggering event: an inbound message (with its optional media-group
correlation id), a callback query, or any other event kind. -/
inductive Event where
  | message (media_group_id : Option String)
  | callback
  | other
deriving DecidableEq

/-- Modelled from the spec: the per-chat navigation `Stack` entity (not under src):
an id, the ordered history of intent ids (most recent last) and the cached
identifiers of the last delivered message. -/
structure Stack where
  id : String := DEFAULT_STACK_ID
  intents : List Nat := []
  last_message_id : Option Nat := none
  last_media_id : Option String := none
  last_media_unique_id : Option String := none
  last_reply_keyboard : Bool := false
  last_income_media_group_id : Option String := none
deriving DecidableEq

namespace ManagerImpl

/-- `ManagerImpl._calc_show_mode`: the show-mode decision, evaluated against the
pending show mode (`self.show_mode`), the current stack and the triggering event. -/
def calc_show_mode (show_mode : ShowMode) (stack : Stack) (event : Event) : ShowMode :=
  if show_mode ≠ ShowMode.auto then show_mode
  else if stack.last_reply_keyboard then ShowMode.delete_and_send
  else if stack.id ≠ DEFAULT_STACK_ID then ShowMode.edit
  else
    match event with
    | Event.message none => ShowMode.send
    | Event.message (some g) =>
        if some g = stack.last_income_media_group_id then ShowMode.edit
        else ShowMode.send
    | _ => ShowMode.edit

end ManagerImpl

/-! ### Heap model of Python dict objects (for `SubManager`)

`SubManager.current_context` relies on Python object aliasing: the sub-context
produced by `dataclasses.replace` shares its `dialog_data` dict object with the
parent context, and `dict.setdefault` mutates the parent's `widget_data` in
place.  We model dict objects as references into an explicit heap. -/

/-- A Python value stored in a dict: either an opaque primitive or a reference
to another dict object. -/
inductive Val where
  | prim : String → Val
  | ref : Nat → Val
deriving DecidableEq

/-- A dict object: insertion-ordered association list. -/
abbrev Dict := List (String × Val)

/-- Read a key from a dict. -/
def dictGet (d : Dict) (k : String) : Option Val :=
  match d with
  | [] => none
  | (k2, v) :: rest => if k2 = k then some v else dictGet rest k

/-- `d[k] = v`: replace in place when present, append otherwise
(Python dicts keep insertion order). -/
def dictSet (d : Dict) (k : String) (v : Val) : Dict :=
  match d with
  | [] => [(k, v)]
  | (k2, v2) :: rest => if k2 = k then (k2, v) :: rest else (k2, v2) :: dictSet rest k v

/-- Python `d1.update(d2)`: assign every key of `d2` into `d1`, in order. -/
def pyDictUpdate (d1 d2 : Dict) : Dict :=
  d2.foldl (fun acc kv => dictSet acc kv.1 kv.2) d1

/-- Replace (or insert) the dict stored at reference `r`. -/
def memSet : List (Nat × Dict) → Nat → Dict → List (Nat × Dict)
  | [], r, d => [(r, d)]
  | (r2, d2) :: rest, r, d =>
      if r2 = r then (r2, d) :: rest else (r2, d2) :: memSet rest r d

/-- The heap of dict objects: next fresh reference and the store. -/
structure Heap where
  next : Nat
  mem : List (Nat × Dict)
deriving DecidableEq

/-- Look up the dict stored at reference `r`. -/
def memGet : List (Nat × Dict) → Nat → Option Dict
  | [], _ => none
  | (r2, d) :: rest, r => if r2 = r then some d else memGet rest r

/-- Dereference: the dict object at `r` (absent references read as empty). -/
def Heap.get (h : Heap) (r : Nat) : Dict :=
  (memGet h.mem r).getD []

/-- Store a dict object at `r`. -/
def Heap.set (h : Heap) (r : Nat) (d : Dict) : Heap :=
  { h with mem := memSet h.mem r d }

/-- Python `heap[r].setdefault(k, \x7b\x7d)`: return the value at `k` when present;
otherwise allocate a fresh empty dict, store a reference to it at `k` in place,
and return that reference. -/
def Heap.setdefault (h : Heap) (r : Nat) (k : String) : Heap × Val :=
  match dictGet (h.get r) k with
  | some v => (h, v)
  | none =>
      let r2 := h.next
      let h2 : Heap := { next := h.next + 1, mem := memSet h.mem r2 [] }
      (h2.set r (dictSet (h2.get r) k (Val.ref r2)), Val.ref r2)

namespace Sub

/-- The `Context` entity as seen by `SubManager`: `dialog_data` and
`widget_data` are dict objects on the heap (modelled from the spec's data
model; the entity itself is not under src).  `widget_data` is a `Val` because
`dataclasses.replace` stores whatever value the second `setdefault` returned. -/
structure Context where
  id : Nat
  state : DState
  start_data : Val
  dialog_data : Nat
  widget_data : Val
deriving DecidableEq

end Sub

namespace SubManager

/-- `SubManager.current_context`: take the parent's current context, do
`widget_data.setdefault(widget_id, \x7b\x7d)` then `.setdefault(item_id, \x7b\x7d)` on the
result, and return `dataclasses.replace(context, widget_data=row_data)`.
Returns `none` where Python would raise (calling `setdefault` on a non-dict). -/
def current_context (h : Heap) (ctx : Sub.Context) (widget_id item_id : String) :
    Option (Heap × Sub.Context) :=
  match ctx.widget_data with
  | Val.prim _ => none
  | Val.ref rw =>
      match h.setdefault rw widget_id with
      | (_, Val.prim _) => none
      | (h1, Val.ref r2) =>
          let (h2, v2) := h1.setdefault r2 item_id
          some (h2, { ctx with widget_data := v2 })

/-- The `SubManager.dialog_data` property: `self.current_context().dialog_data`.
Returns the heap (mutated by the `setdefault` calls) and the dict reference read. -/
def dialog_data (h : Heap) (ctx : Sub.Context) (widget_id item_id : String) :
    Option (Heap × Nat) :=
  match current_context h ctx widget_id item_id with
  | none => none
  | some (h2, sub) => some (h2, sub.dialog_data)

/-- `SubManager.update`: `self.current_context().dialog_data.update(data)`.
The trailing `await self.show(show_mode)` delegates delivery to the parent
manager and is modelled separately at the navigation level. -/
def update (h : Heap) (ctx : Sub.Context) (widget_id item_id : String) (data : Dict) :
    Option Heap :=
  match current_context h ctx widget_id item_id with
  | none => none
  | some (h2, sub) =>
      some (h2.set sub.dialog_data (pyDictUpdate (h2.get sub.dialog_data) data))

end SubManager

/-! ### Navigation state machine (`ManagerImpl`)

World-level model: the state visible to one manager instance — the triggering
event, the current stack and context (`self._data[STACK_KEY]` /
`self._data[CONTEXT_KEY]`), the storage proxy's persisted contexts, the pending
show mode and the closed/attribute flags.  Collaborator calls are recorded as
counters; their results (the sent message) are supplied as oracles. -/

namespace Nav

/-- Modelled from the spec: the `Context` entity (not under src): one navigation
frame with an intent id, a state, the immutable start payload and the two
mutable data mappings (opaque at this level of the model). -/
structure Context where
  id : Nat
  state : DState
  start_data : Option String := none
  dialog_data : List (String × String) := []
  widget_data : List (String × String) := []
deriving DecidableEq

/-- A registered dialog, as exposed by the `DialogProtocol`: its launch mode
and its ordered list of states. -/
structure Dialog where
  launch_mode : LaunchMode
  states : List DState
deriving DecidableEq

/-- The dialog registry: dialogs keyed by state group
(`registry.find_dialog(state)` resolves through the state's group). -/
abbrev Registry := List (String × Dialog)

/-- A message descriptor as returned by the delivery collaborator
(`message_manager.show_message`). -/
structure SentMessage where
  message_id : Nat
  media_id : Option String := none
  media_uniq_id : Option String := none
  has_reply_keyboard : Bool := false
deriving DecidableEq

/-- Error conditions raised by the manager. -/
inductive Err where
  | incorrect_background
  | no_context
  | value_error
  | index_error
  | attribute_error
  | invalid_keyboard
deriving DecidableEq

/-- The state visible to one `ManagerImpl` instance. -/
structure World where
  disabled : Bool := false
  hasEvent : Bool := true
  hasData : Bool := true
  hasCollabs : Bool := true
  event : Event := Event.other
  event_simulated : Bool := false
  event_user_id : Int := 0
  event_chat : Option Int := none
  show_mode : ShowMode := ShowMode.auto
  stack : Stack := {}
  context : Option Context := none
  storage : List (Nat × Context) := []
  stack_saves : Nat := 0
  remove_kbd_calls : Nat := 0
  show_message_calls : Nat := 0
  last_delivery_mode : Option ShowMode := none
  next_intent_id : Nat := 0
deriving DecidableEq

end Nav

/-- The world carried by an operation's outcome, whether it returned normally
or raised (a Python exception leaves the mutations made so far in place). -/
def resultWorld : Except (Nav.Err × Nav.World) Nav.World → Nav.World
  | Except.ok w => w
  | Except.error (_, w) => w

/-- `registry.find_dialog(state)`: look the dialog up by the state's group. -/
def Registry.find_dialog : Nav.Registry → DState → Option Nav.Dialog
  | [], _ => none
  | (g, d) :: rest, s => if g = s.group then some d else Registry.find_dialog rest s

/-- Save a context into the storage proxy's store, keyed by intent id. -/
def storageSave : List (Nat × Nav.Context) → Nav.Context → List (Nat × Nav.Context)
  | [], c => [(c.id, c)]
  | (i, c2) :: rest, c => if i = c.id then (i, c) :: rest else (i, c2) :: storageSave rest c

/-- Python `list.index(x)`: index of the first occurrence, `none` where Python
raises ValueError. -/
def listIndex [DecidableEq α] : List α → α → Option Nat
  | [], _ => none
  | a :: as, x => if a = x then some 0 else (listIndex as x).map (· + 1)

/-- Python `l[i]` with negative-index wrap-around; `none` where Python raises
IndexError. -/
def pyGetItem (l : List α) (i : Int) : Option α :=
  let j := if i < 0 then i + l.length else i
  if 0 ≤ j ∧ j < l.length then l.get? j.toNat else none

namespace ManagerImpl

open Nav

/-- `ManagerImpl._remove_kbd`: skip when no last message is recorded; otherwise
call `message_manager.remove_kbd` (recorded as a counter) and clear
`stack.last_message_id`. -/
def remove_kbd (w : World) : World :=
  match w.stack.last_message_id with
  | none => w
  | some _ =>
      { w with remove_kbd_calls := w.remove_kbd_calls + 1,
               stack := { w.stack with last_message_id := none } }

/-- `ManagerImpl.reset_stack`: pop and remove every frame (the net effect of
the `while not stack.empty()` loop), persist the emptied stack, optionally
remove the keyboard, and clear the current context. -/
def reset_stack (remove_keyboard : Bool) (w : World) : Except (Err × World) World :=
  if w.disabled then Except.error (Err.incorrect_background, w) else
  let w1 := { w with
    storage := w.stack.intents.foldl (fun st i => st.filter (fun p => p.1 ≠ i)) w.storage,
    stack := { w.stack with intents := [] } }
  let w2 := { w1 with stack_saves := w1.stack_saves + 1 }
  let w3 := if remove_keyboard then remove_kbd w2 else w2
  Except.ok { w3 with context := none }

/-- `ManagerImpl._save_last_message`: cache the delivered message's identifiers
on the stack. -/
def save_last_message (s : Stack) (m : SentMessage) : Stack :=
  { s with last_message_id := some m.message_id,
           last_media_id := m.media_id,
           last_media_unique_id := m.media_uniq_id,
           last_reply_keyboard := m.has_reply_keyboard }

/-- `ManagerImpl.show`: short-circuit when the pending mode is `NO_UPDATE`;
otherwise resolve the rendered message's mode (`show_mode or self.show_mode`,
with `AUTO` resolved by `_calc_show_mode`), enforce stack compatibility
(`new_reply_kbd` says whether the rendered message carries a
`ReplyKeyboardMarkup`), deliver via `show_message` (the `sent` oracle is the
returned descriptor, `none` standing for `MessageNotModified`), and record the
inbound media-group id for message events. -/
def show_world (sent : Option SentMessage) (new_reply_kbd : Bool)
    (show_mode_arg : Option ShowMode) (w : World) : Except (Err × World) World :=
  if w.disabled then Except.error (Err.incorrect_background, w) else
  if w.show_mode = ShowMode.no_update then Except.ok w else
  let mode0 := show_mode_arg.getD w.show_mode
  let mode := if mode0 = ShowMode.auto then calc_show_mode w.show_mode w.stack w.event else mode0
  if w.stack.id ≠ DEFAULT_STACK_ID ∧ new_reply_kbd then
    Except.error (Err.invalid_keyboard, w)
  else
    let w1 := { w with show_message_calls := w.show_message_calls + 1,
                       last_delivery_mode := some mode }
    let w2 :=
      match sent with
      | none => w1
      | some m => { w1 with stack := save_last_message w1.stack m }
    match w2.event with
    | Event.message mgid =>
        Except.ok { w2 with stack := { w2.stack with last_income_media_group_id := mgid } }
    | _ => Except.ok w2

/-- `ManagerImpl.switch_to`: reject a target state in another state group;
otherwise record the pending show mode and mutate the current context's state
in place. -/
def switch_to (state : DState) (show_mode_arg : Option ShowMode) (w : World) :
    Except (Err × World) World :=
  if w.disabled then Except.error (Err.incorrect_background, w) else
  match w.context with
  | none => Except.error (Err.no_context, w)
  | some ctx =>
      if ctx.state.group ≠ state.group then Except.error (Err.value_error, w)
      else
        Except.ok { w with show_mode := show_mode_arg.getD w.show_mode,
                           context := some { ctx with state := state } }

/-- `ManagerImpl.next`: locate the current state in the dialog's ordered state
list and `switch_to` the state at `index + 1` (Python list indexing). -/
def next (reg : Registry) (show_mode_arg : Option ShowMode) (w : World) :
    Except (Err × World) World :=
  if w.disabled then Except.error (Err.incorrect_background, w) else
  match w.context with
  | none => Except.error (Err.no_context, w)
  | some ctx =>
      match Registry.find_dialog reg ctx.state with
      | none => Except.error (Err.value_error, w)
      | some dlg =>
          match listIndex dlg.states ctx.state with
          | none => Except.error (Err.value_error, w)
          | some i =>
              match pyGetItem dlg.states ((i : Int) + 1) with
              | none => Except.error (Err.index_error, w)
              | some s => switch_to s show_mode_arg w

/-- `ManagerImpl.back`: locate the current state and `switch_to` the state at
`index - 1` (Python list indexing, where `-1` wraps to the last element). -/
def back (reg : Registry) (show_mode_arg : Option ShowMode) (w : World) :
    Except (Err × World) World :=
  if w.disabled then Except.error (Err.incorrect_background, w) else
  match w.context with
  | none => Except.error (Err.no_context, w)
  | some ctx =>
      match Registry.find_dialog reg ctx.state with
      | none => Except.error (Err.value_error, w)
      | some dlg =>
          match listIndex dlg.states ctx.state with
          | none => Except.error (Err.value_error, w)
          | some i =>
              match pyGetItem dlg.states ((i : Int) - 1) with
              | none => Except.error (Err.index_error, w)
              | some s => switch_to s show_mode_arg w

/-- The head of `ManagerImpl._start_normal`: when the stack is not empty,
resolve the current dialog (`self.dialog()` raises when there is no current
context or the registry has no dialog for its state); returns the current
state's group and dialog. -/
def old_dialog (reg : Registry) (w : World) :
    Except (Err × World) (Option (String × Dialog)) :=
  if w.stack.intents.isEmpty then Except.ok none
  else
    match w.context with
    | none => Except.error (Err.no_context, w)
    | some ctx =>
        match Registry.find_dialog reg ctx.state with
        | none => Except.error (Err.value_error, w)
        | some d => Except.ok (some (ctx.state.group, d))

/-- The `SINGLE_TOP` branch of `_start_normal`:
`storage.remove_context(stack.pop()); self._data[CONTEXT_KEY] = None`
(only reached with a non-empty stack, since it requires an old dialog). -/
def pop_remove (w : World) : World :=
  match w.stack.intents.getLast? with
  | none => w
  | some i =>
      { w with stack := { w.stack with intents := w.stack.intents.dropLast },
               storage := w.storage.filter (fun p => p.1 ≠ i),
               context := none }

/-- The tail of `_start_normal` after the push: run the dialog's
`process_start` hook with the new context `c` installed, then auto-render
(`await self.show()`) unless the hook changed the current context identity. -/
def start_finish (hook : World → World) (sent : Option SentMessage)
    (new_reply_kbd : Bool) (c : Context) (w5 : World) : Except (Err × World) World :=
  match (hook w5).context with
  | some c2 =>
      if c.id = c2.id then show_world sent new_reply_kbd none (hook w5)
      else Except.ok (hook w5)
  | none => Except.ok (hook w5)

/-- The middle of `_start_normal` after the EXCLUSIVE-on-top policy check:
resolve the new dialog, clear the stack for `EXCLUSIVE`/`ROOT` (without
removing the keyboard), pop the top frame for `SINGLE_TOP` when it is the same
dialog (`new_dialog is old_dialog`, i.e. the registry entry for the same
group), persist the superseded context, push the new frame (`stack.push`
creates the `Context` with a fresh intent id — modelled from the spec), then
run the entry hook and auto-render (`start_finish`). -/
def start_normal_core (reg : Registry) (hook : World → World) (sent : Option SentMessage)
    (new_reply_kbd : Bool) (state : DState) (data : Option String)
    (og : Option (String × Dialog)) (w : World) : Except (Err × World) World :=
  match Registry.find_dialog reg state with
  | none => Except.error (Err.value_error, w)
  | some new_dialog =>
      let step1 : Except (Err × World) World :=
        if new_dialog.launch_mode = LaunchMode.exclusive ∨
            new_dialog.launch_mode = LaunchMode.root then
          reset_stack false w
        else Except.ok w
      match step1 with
      | Except.error e => Except.error e
      | Except.ok w2 =>
          let w3 :=
            if new_dialog.launch_mode = LaunchMode.single_top ∧
                og.map Prod.fst = some state.group then
              pop_remove w2
            else w2
          let w4 :=
            match w3.context with
            | some c => { w3 with storage := storageSave w3.storage c }
            | none => w3
          let c : Context := { id := w4.next_intent_id, state := state, start_data := data }
          let w5 := { w4 with
            stack := { w4.stack with intents := w4.stack.intents ++ [c.id] },
            next_intent_id := w4.next_intent_id + 1,
            context := some c }
          start_finish hook sent new_reply_kbd c w5

/-- `ManagerImpl._start_normal`: refuse to start on top of an `EXCLUSIVE`
dialog, then run the core start sequence. -/
def start_normal (reg : Registry) (hook : World → World) (sent : Option SentMessage)
    (new_reply_kbd : Bool) (state : DState) (data : Option String) (w : World) :
    Except (Err × World) World :=
  if w.disabled then Except.error (Err.incorrect_background, w) else
  match old_dialog reg w with
  | Except.error e => Except.error e
  | Except.ok og =>
      match og with
      | some (g0, d0) =>
          if d0.launch_mode = LaunchMode.exclusive then Except.error (Err.value_error, w)
          else start_normal_core reg hook sent new_reply_kbd state data (some (g0, d0)) w
      | none => start_normal_core reg hook sent new_reply_kbd state data none w

/-- `ManagerImpl.start`: record the pending show mode
(`self.show_mode = show_mode or self.show_mode`), then branch on the start
mode.  `NEW_STACK` starts a dialog in a fresh stack through a background
handle and leaves this manager's world untouched; an unknown mode raises
ValueError. -/
def start (reg : Registry) (hook : World → World) (sent : Option SentMessage)
    (new_reply_kbd : Bool) (state : DState) (data : Option String)
    (mode : StartMode) (show_mode_arg : Option ShowMode) (w : World) :
    Except (Err × World) World :=
  if w.disabled then Except.error (Err.incorrect_background, w) else
  let w1 := { w with show_mode := show_mode_arg.getD w.show_mode }
  match mode with
  | StartMode.normal => start_normal reg hook sent new_reply_kbd state data w1
  | StartMode.reset_stack =>
      match reset_stack false w1 with
      | Except.error e => Except.error e
      | Except.ok w2 => start_normal reg hook sent new_reply_kbd state data w2
  | StartMode.new_stack => Except.ok w1
  | StartMode.other => Except.error (Err.value_error, w1)

/-- `ManagerImpl._get_fake_user`: the real event user when `user_id` is absent
or matches, otherwise a `FakeUser`; reads `self.event` first (an attribute
deleted by `close_manager`).  The Bool is the real-vs-synthetic tag. -/
def get_fake_user (w : World) (user_id : Option Int) : Except (Err × World) (Bool × Int) :=
  if ¬ w.hasEvent then Except.error (Err.attribute_error, w) else
  match user_id with
  | none => Except.ok (true, w.event_user_id)
  | some uid =>
      if uid = w.event_user_id then Except.ok (true, w.event_user_id)
      else Except.ok (false, uid)

/-- `ManagerImpl._get_fake_chat`: the real event chat when known and matching;
raises ValueError when there is no event chat and no explicit `chat_id`;
otherwise a `FakeChat`.  Reads `self._data` (deleted by `close_manager`). -/
def get_fake_chat (w : World) (chat_id : Option Int) : Except (Err × World) (Bool × Int) :=
  if ¬ w.hasData then Except.error (Err.attribute_error, w) else
  match w.event_chat with
  | some cid =>
      match chat_id with
      | none => Except.ok (true, cid)
      | some c => if c = cid then Except.ok (true, cid) else Except.ok (false, c)
  | none =>
      match chat_id with
      | none => Except.error (Err.value_error, w)
      | some c => Except.ok (false, c)

/-- `ManagerImpl.is_same_chat`: false when no chat is bound to the event,
otherwise compare the resolved user and chat ids with the current event's. -/
def is_same_chat (w : World) (user chat : Bool × Int) : Bool :=
  match w.event_chat with
  | none => false
  | some cid => user.2 = w.event_user_id ∧ chat.2 = cid

/-- The handle produced by `ManagerImpl.bg` (the `BgManager` constructor
arguments that depend on the resolution). -/
structure BgHandle where
  user : Bool × Int
  chat : Bool × Int
  intent_id : Option Nat
  stack_id : String
deriving DecidableEq

/-- `ManagerImpl.bg`: resolve target user and chat; with `stack_id` omitted,
reuse the current stack id (and current intent id when a context exists) for
the same chat/user, else fall back to the default stack id. -/
def bg (w : World) (user_id chat_id : Option Int) (stack_id : Option String) :
    Except (Err × World) BgHandle :=
  match get_fake_user w user_id with
  | Except.error e => Except.error e
  | Except.ok user =>
      match get_fake_chat w chat_id with
      | Except.error e => Except.error e
      | Except.ok chat =>
          match stack_id with
          | some sid => Except.ok { user := user, chat := chat, intent_id := none, stack_id := sid }
          | none =>
              if is_same_chat w user chat then
                if w.disabled then Except.error (Err.incorrect_background, w)
                else
                  Except.ok { user := user, chat := chat,
                              intent_id := w.context.map Nav.Context.id,
                              stack_id := w.stack.id }
              else
                Except.ok { user := user, chat := chat,
                            intent_id := none, stack_id := DEFAULT_STACK_ID }

/-- Outcome of `ManagerImpl.answer_callback`. -/
inductive CallbackAnswer where
  | skipped
  | answered
deriving DecidableEq

/-- `ManagerImpl.answer_callback`: reads `self.event` (no disabled check!),
skips non-callback events and simulated events, then calls the delivery
collaborator.  After `close_manager` the deleted attributes make the reads
raise AttributeError. -/
def answer_callback (w : World) : Except (Err × World) CallbackAnswer :=
  if ¬ w.hasEvent then Except.error (Err.attribute_error, w) else
  if w.event ≠ Event.callback then Except.ok CallbackAnswer.skipped else
  if ¬ w.hasData then Except.error (Err.attribute_error, w) else
  if w.event_simulated then Except.ok CallbackAnswer.skipped else
  if ¬ w.hasCollabs then Except.error (Err.attribute_error, w) else
  Except.ok CallbackAnswer.answered

/-- `ManagerImpl.close_manager`: guard, set `disabled`, then delete
`media_id_storage`, `message_manager`, `_event` and `_data`. -/
def close_manager (w : World) : Except (Err × World) World :=
  if w.disabled then Except.error (Err.incorrect_background, w)
  else Except.ok { w with disabled := true,
                          hasEvent := false, hasData := false, hasCollabs := false }

end ManagerImpl

/-! ### Concrete fixtures -/

/-- A world after `close_manager`: guard set, event payload and collaborators dropped. -/
def closedWorld (w : Nav.World) : Nav.World :=
  { w with disabled := true, hasEvent := false, hasData := false, hasCollabs := false }

/-- Did the operation return normally? -/
def isOkRes : Except (Nav.Err × Nav.World) Nav.World → Bool
  | Except.ok _ => true
  | Except.error _ => false

def sA : DState := ⟨"g", "a"⟩

def sB : DState := ⟨"g", "b"⟩

def sR : DState := ⟨"r", "root"⟩

def dlgAB : Nav.Dialog := ⟨LaunchMode.normal, [sA, sB]⟩

def dlgRoot : Nav.Dialog := ⟨LaunchMode.root, [sR]⟩

def dlgExcl : Nav.Dialog := ⟨LaunchMode.exclusive, [sA, sB]⟩

def regAB : Nav.Registry := [("g", dlgAB)]

def regRoot : Nav.Registry := [("g", dlgAB), ("r", dlgRoot)]

def regExcl : Nav.Registry := [("g", dlgExcl), ("r", dlgRoot)]

def ctxA : Nav.Context := { id := 0, state := sA }

def ctxB : Nav.Context := { id := 0, state := sB }

def ctx1 : Nav.Context := { id := 1, state := sA }

def wA : Nav.World := { stack := { intents := [0] }, context := some ctxA, next_intent_id := 1 }

def wLast : Nav.World := { wA with context := some ctxB }

def w5 : Nav.World :=
  { stack := { intents := [0, 1] }, context := some ctx1, next_intent_id := 2 }

def wNU : Nav.World := { show_mode := ShowMode.no_update }

def wSend : Nav.World := { show_mode := ShowMode.send }

def wSendAfter : Nav.World :=
  { wSend with show_message_calls := 1, last_delivery_mode := some ShowMode.no_update }

def wLive : Nav.World := { event := Event.callback }

def wBg : Nav.World :=
  { event_user_id := 7, event_chat := some 10,
    stack := { id := "s7", intents := [0] }, context := some ctxA }

def stackKbd : Stack := { last_reply_keyboard := true }

def stackNamed : Stack := { id := "s1" }

def h0 : Heap := ⟨2, [(0, []), (1, [])]⟩

def ctx0 : Sub.Context :=
  { id := 0, state := sA, start_data := Val.prim "", dialog_data := 0,
    widget_data := Val.ref 1 }

/-- The heap after `SubManager.update` through the ("list", "3") accessor on
`h0`/`ctx0`: the write landed in the parent's dialog_data dict (ref 0), while
the freshly created row dict (ref 3) stayed empty. -/
def hParentWrite : Heap :=
  ⟨4, [(0, [("k", Val.prim "v")]), (1, [("list", Val.ref 2)]),
       (2, [("3", Val.ref 3)]), (3, [])]⟩

/-! ### Helper lemmas: dicts and the heap -/

theorem dictGet_dictSet_self (d : Dict) (k : String) (v : Val) :
    dictGet (dictSet d k v) k = some v := by
  induction d with
  | nil => simp [dictSet, dictGet]
  | cons kv rest ih =>
      by_cases hk : kv.1 = k
      · simp [dictSet, dictGet, hk]
      · simp [dictSet, dictGet, hk, ih]

theorem dictGet_dictSet_ne (d : Dict) (k k2 : String) (v : Val) (hk : k2 ≠ k) :
    dictGet (dictSet d k v) k2 = dictGet d k2 := by
  have hk2 : ¬(k = k2) := fun hh => hk hh.symm
  induction d with
  | nil => simp [dictSet, dictGet, hk2]
  | cons kv rest ih =>
      by_cases h1 : kv.1 = k
      · subst h1
        simp [dictSet, dictGet, hk2]
      · by_cases h2 : kv.1 = k2
        · simp [dictSet, dictGet, h1, h2, hk]
        · simp [dictSet, dictGet, h1, h2, ih]

theorem memGet_memSet_self (m : List (Nat × Dict)) (r : Nat) (d : Dict) :
    memGet (memSet m r d) r = some d := by
  induction m with
  | nil => simp [memSet, memGet]
  | cons rd rest ih =>
      by_cases hr : rd.1 = r
      · simp [memSet, memGet, hr]
      · simp [memSet, memGet, hr, ih]

theorem memGet_memSet_ne (m : List (Nat × Dict)) (r r2 : Nat) (d : Dict) (hr : r2 ≠ r) :
    memGet (memSet m r d) r2 = memGet m r2 := by
  have hr2 : ¬(r = r2) := fun hh => hr hh.symm
  induction m with
  | nil => simp [memSet, memGet, hr2]
  | cons rd rest ih =>
      by_cases h1 : rd.1 = r
      · subst h1
        simp [memSet, memGet, hr2]
      · by_cases h2 : rd.1 = r2
        · simp [memSet, memGet, h1, h2, hr]
        · simp [memSet, memGet, h1, h2, ih]

theorem Heap.get_set_self (h : Heap) (r : Nat) (d : Dict) :
    (h.set r d).get r = d := by
  simp [Heap.get, Heap.set, memGet_memSet_self]

theorem Heap.get_set_ne (h : Heap) (r r2 : Nat) (d : Dict) (hr : r2 ≠ r) :
    (h.set r d).get r2 = h.get r2 := by
  simp [Heap.get, Heap.set, memGet_memSet_ne _ _ _ _ hr]

theorem Heap.next_set (h : Heap) (r : Nat) (d : Dict) : (h.set r d).next = h.next := rfl

/-- `setdefault` when the key is present: no mutation, the stored value is returned. -/
theorem Heap.setdefault_found (h : Heap) (r : Nat) (k : String) (v : Val)
    (hv : dictGet (h.get r) k = some v) : h.setdefault r k = (h, v) := by
  simp [Heap.setdefault, hv]

/-- `setdefault` when the key is absent: a fresh empty dict is allocated at
`h.next` and a reference to it is stored at `k` in place. -/
theorem Heap.setdefault_fresh (h : Heap) (r : Nat) (k : String)
    (hv : dictGet (h.get r) k = none) (hr : r ≠ h.next) :
    ∃ h2, h.setdefault r k = (h2, Val.ref h.next) ∧
      h2.next = h.next + 1 ∧
      h2.get r = dictSet (h.get r) k (Val.ref h.next) ∧
      h2.get h.next = ([] : Dict) ∧
      ∀ r2, r2 ≠ r → r2 ≠ h.next → h2.get r2 = h.get r2 := by
  have halloc : ∀ r2, r2 ≠ h.next →
      (Heap.mk (h.next + 1) (memSet h.mem h.next [])).get r2 = h.get r2 := by
    intro r2 h2
    simp [Heap.get, memGet_memSet_ne _ _ _ _ h2]
  have hallocself : (Heap.mk (h.next + 1) (memSet h.mem h.next [])).get h.next = [] := by
    simp [Heap.get, memGet_memSet_self]
  refine ⟨(Heap.mk (h.next + 1) (memSet h.mem h.next [])).set r
      (dictSet ((Heap.mk (h.next + 1) (memSet h.mem h.next [])).get r) k (Val.ref h.next)),
    ?_, ?_, ?_, ?_, ?_⟩
  · simp only [Heap.setdefault, hv]
  · rfl
  · rw [Heap.get_set_self, halloc r hr]
  · rw [Heap.get_set_ne _ _ _ _ (fun hh => hr hh.symm), hallocself]
  · intro r2 hne1 hne2
    rw [Heap.get_set_ne _ _ _ _ hne1, halloc r2 hne2]

/-- Characterization of `SubManager.current_context` when the widget id is not
yet present in the parent's `widget_data`: two fresh row dicts are allocated
and linked in place, and the sub-context points at the inner one. -/
theorem sub_cc_fresh_case (h : Heap) (ctx : Sub.Context) (rw : Nat) (wid iid : String)
    (hwv : ctx.widget_data = Val.ref rw) (hw : rw < h.next)
    (habs : dictGet (h.get rw) wid = none) :
    ∃ hB, SubManager.current_context h ctx wid iid =
        some (hB, { ctx with widget_data := Val.ref (h.next + 1) }) ∧
      hB.next = h.next + 2 ∧
      hB.get rw = dictSet (h.get rw) wid (Val.ref h.next) ∧
      hB.get h.next = dictSet [] iid (Val.ref (h.next + 1)) ∧
      hB.get (h.next + 1) = ([] : Dict) ∧
      ∀ r2, r2 ≠ rw → r2 ≠ h.next → r2 ≠ h.next + 1 → hB.get r2 = h.get r2 := by
  obtain ⟨hA, heqA, hnextA, hgetAr, hgetAnew, hotherA⟩ :=
    Heap.setdefault_fresh h rw wid habs (Nat.ne_of_lt hw)
  have habs2 : dictGet (hA.get h.next) iid = none := by rw [hgetAnew]; rfl
  have hne2 : h.next ≠ hA.next := by rw [hnextA]; omega
  obtain ⟨hB, heqB, hnextB, hgetBr, hgetBnew, hotherB⟩ :=
    Heap.setdefault_fresh hA h.next iid habs2 hne2
  refine ⟨hB, ?_, ?_, ?_, ?_, ?_, ?_⟩
  · simp only [SubManager.current_context, hwv, heqA, heqB, hnextA]
  · rw [hnextB, hnextA]
  · rw [hotherB rw (Nat.ne_of_lt hw) (by rw [hnextA]; omega), hgetAr]
  · rw [hgetBr, hgetAnew, hnextA]
  · rw [← hnextA, hgetBnew]
  · intro r2 hr1 hr2 hr3
    rw [hotherB r2 hr2 (by rw [hnextA]; exact hr3), hotherA r2 hr1 hr2]

/-- Claim C9: every `SubManager.current_context` call (and hence every read of
the accessor's `dialog_data`) mutates the parent's persisted context: with
`widget_data[widget_id]` absent, it inserts an empty mapping at the widget id
and at the item id, and the returned context holds the nested row mapping
(shared by reference with the parent's `widget_data`) as its `widget_data`,
not an independent copy. -/
theorem sub_current_context_inserts (h : Heap) (ctx : Sub.Context) (rw : Nat)
    (wid iid : String)
    (hwv : ctx.widget_data = Val.ref rw)
    (hw : rw < h.next)
    (habs : dictGet (h.get rw) wid = none) :
    ∃ h2 sub, SubManager.current_context h ctx wid iid = some (h2, sub) ∧
      dictGet (h2.get rw) wid = some (Val.ref h.next) ∧
      dictGet (h2.get h.next) iid = some (Val.ref (h.next + 1)) ∧
      h2.get (h.next + 1) = ([] : Dict) ∧
      sub.widget_data = Val.ref (h.next + 1) ∧
      sub.id = ctx.id ∧ sub.dialog_data = ctx.dialog_data ∧
      h2.get rw ≠ h.get rw ∧
      SubManager.dialog_data h ctx wid iid = some (h2, ctx.dialog_data) := by
  obtain ⟨hB, hcc, _, hgr, hgn, hgn1, _⟩ := sub_cc_fresh_case h ctx rw wid iid hwv hw habs
  refine ⟨hB, _, hcc, ?_, ?_, hgn1, rfl, rfl, rfl, ?_, ?_⟩
  · rw [hgr, dictGet_dictSet_self]
  · rw [hgn, dictGet_dictSet_self]
  · intro hsame
    rw [hgr] at hsame
    have := dictGet_dictSet_self (h.get rw) wid (Val.ref h.next)
    rw [hsame, habs] at this
    exact Option.noConfusion this
  · simp only [SubManager.dialog_data, hcc]

/-- Claim C9 witness: concrete heap and context exercising the theorem. -/
theorem sub_current_context_inserts_witness :
    ∃ h2 sub, SubManager.current_context h0 ctx0 "list" "3" = some (h2, sub) ∧
      dictGet (h2.get 1) "list" = some (Val.ref h0.next) ∧
      dictGet (h2.get h0.next) "3" = some (Val.ref (h0.next + 1)) ∧
      h2.get (h0.next + 1) = ([] : Dict) ∧
      sub.widget_data = Val.ref (h0.next + 1) ∧
      sub.id = ctx0.id ∧ sub.dialog_data = ctx0.dialog_data ∧
      h2.get 1 ≠ h0.get 1 ∧
      SubManager.dialog_data h0 ctx0 "list" "3" = some (h2, ctx0.dialog_data) :=
  sub_current_context_inserts h0 ctx0 1 "list" "3" rfl (by decide) rfl

/-- Claim C2 counterexample: a write through the ("list", "3") accessor's
`dialog_data` (via its `update`) IS visible in the parent's top-level
`dialog_data` (key "k" appears in the dict at `ctx0.dialog_data`), while the
freshly created ("list", "3") row dict stays empty — refuting the claim that
the write is visible only under the exact (widget_id, item_id) pair and
invisible in the parent's top-level `dialog_data`. -/
theorem sub_update_parent_visible_cex :
    SubManager.update h0 ctx0 "list" "3" [("k", Val.prim "v")] = some hParentWrite ∧
    dictGet (hParentWrite.get ctx0.dialog_data) "k" = some (Val.prim "v") ∧
    hParentWrite.get 3 = ([] : Dict) := by
  refine ⟨?_, ?_, ?_⟩ <;> rfl

/-- Claim C2 (amended): a write performed through an accessor's `dialog_data`
(via its `update`) lands in the parent's shared top-level `dialog_data` dict —
the accessor's `dialog_data` aliases the parent's — so it is visible in the
parent's `dialog_data` and through a sibling accessor with the same widget id
and a different item id; nothing is stored under the accessor's exact
(widget_id, item_id) row.  Per-item isolation applies to the accessor's
`widget_data` view instead. -/
theorem sub_update_shared_dialog_data (h : Heap) (ctx : Sub.Context) (rw : Nat)
    (wid iid iid2 : String) (d : Dict)
    (hwv : ctx.widget_data = Val.ref rw)
    (hw : rw < h.next) (hdd : ctx.dialog_data < h.next) (hne : ctx.dialog_data ≠ rw)
    (habs : dictGet (h.get rw) wid = none) (hii : iid2 ≠ iid) :
    ∃ h6, SubManager.update h ctx wid iid d = some h6 ∧
      h6.get ctx.dialog_data = pyDictUpdate (h.get ctx.dialog_data) d ∧
      h6.get (h.next + 1) = ([] : Dict) ∧
      ∃ hC c2, SubManager.current_context h6 ctx wid iid2 = some (hC, c2) ∧
        c2.dialog_data = ctx.dialog_data ∧
        hC.get c2.dialog_data = pyDictUpdate (h.get ctx.dialog_data) d := by
  obtain ⟨hB, hcc, hBnext, hgr, hgn, hgn1, hother⟩ :=
    sub_cc_fresh_case h ctx rw wid iid hwv hw habs
  have hBdd : hB.get ctx.dialog_data = h.get ctx.dialog_data :=
    hother ctx.dialog_data hne (by omega) (by omega)
  have hupd : SubManager.update h ctx wid iid d =
      some (hB.set ctx.dialog_data (pyDictUpdate (hB.get ctx.dialog_data) d)) := by
    simp only [SubManager.update, hcc]
  set h6 := hB.set ctx.dialog_data (pyDictUpdate (hB.get ctx.dialog_data) d) with h6def
  have h6dd : h6.get ctx.dialog_data = pyDictUpdate (h.get ctx.dialog_data) d := by
    rw [h6def, Heap.get_set_self, hBdd]
  have h6rw : h6.get rw = dictSet (h.get rw) wid (Val.ref h.next) := by
    rw [h6def, Heap.get_set_ne _ _ _ _ (fun hh => hne hh.symm), hgr]
  have h6n : h6.get h.next = dictSet [] iid (Val.ref (h.next + 1)) := by
    rw [h6def, Heap.get_set_ne _ _ _ _ (by omega : h.next ≠ ctx.dialog_data), hgn]
  have h6n1 : h6.get (h.next + 1) = ([] : Dict) := by
    rw [h6def, Heap.get_set_ne _ _ _ _ (by omega : h.next + 1 ≠ ctx.dialog_data), hgn1]
  have h6next : h6.next = h.next + 2 := by
    rw [h6def, Heap.next_set, hBnext]
  -- sibling accessor (wid, iid2): finds the wid entry, allocates a fresh row
  have hfound : h6.setdefault rw wid = (h6, Val.ref h.next) :=
    Heap.setdefault_found h6 rw wid (Val.ref h.next)
      (by rw [h6rw, dictGet_dictSet_self])
  have habs3 : dictGet (h6.get h.next) iid2 = none := by
    rw [h6n, dictGet_dictSet_ne _ _ _ _ hii]
    rfl
  obtain ⟨hC, heqC, hCnext, hCr, hCnew, hCother⟩ :=
    Heap.setdefault_fresh h6 h.next iid2 habs3 (by omega)
  have hcc2 : SubManager.current_context h6 ctx wid iid2 =
      some (hC, { ctx with widget_data := Val.ref h6.next }) := by
    simp only [SubManager.current_context, hwv, hfound, heqC]
  refine ⟨h6, hupd, h6dd, h6n1, hC, _, hcc2, rfl, ?_⟩
  rw [hCother ctx.dialog_data (by omega) (by omega), h6dd]

/-- Claim C2 amended-theorem witness: the concrete heap `h0` and context
`ctx0` exercising the theorem with distinct item ids. -/
theorem sub_update_shared_dialog_data_witness :
    ∃ h6, SubManager.update h0 ctx0 "list" "3" [("k", Val.prim "v")] = some h6 ∧
      h6.get ctx0.dialog_data = pyDictUpdate (h0.get ctx0.dialog_data) [("k", Val.prim "v")] ∧
      h6.get (h0.next + 1) = ([] : Dict) ∧
      ∃ hC c2, SubManager.current_context h6 ctx0 "list" "4" = some (hC, c2) ∧
        c2.dialog_data = ctx0.dialog_data ∧
        hC.get c2.dialog_data = pyDictUpdate (h0.get ctx0.dialog_data) [("k", Val.prim "v")] :=
  sub_update_shared_dialog_data h0 ctx0 1 "list" "3" "4" [("k", Val.prim "v")]
    rfl (by decide) (by decide) (by decide) rfl (by decide)

/-- Claim C1: with effective show mode AUTO, the decision returns
DELETE_AND_SEND when the stack's last_reply_keyboard flag is set; else EDIT
when the stack id differs from the default stack id; else, for an inbound
message event, SEND without a media-group id, EDIT when the media-group id
equals the stack's last_income_media_group_id and SEND otherwise; and EDIT
for every non-message event. -/
theorem calc_show_mode_auto (st : Stack) (ev : Event) :
    (st.last_reply_keyboard = true →
        ManagerImpl.calc_show_mode ShowMode.auto st ev = ShowMode.delete_and_send) ∧
    (st.last_reply_keyboard = false → st.id ≠ DEFAULT_STACK_ID →
        ManagerImpl.calc_show_mode ShowMode.auto st ev = ShowMode.edit) ∧
    (st.last_reply_keyboard = false → st.id = DEFAULT_STACK_ID → ev = Event.message none →
        ManagerImpl.calc_show_mode ShowMode.auto st ev = ShowMode.send) ∧
    (∀ g, st.last_reply_keyboard = false → st.id = DEFAULT_STACK_ID →
        ev = Event.message (some g) → st.last_income_media_group_id = some g →
        ManagerImpl.calc_show_mode ShowMode.auto st ev = ShowMode.edit) ∧
    (∀ g, st.last_reply_keyboard = false → st.id = DEFAULT_STACK_ID →
        ev = Event.message (some g) → st.last_income_media_group_id ≠ some g →
        ManagerImpl.calc_show_mode ShowMode.auto st ev = ShowMode.send) ∧
    (st.last_reply_keyboard = false → st.id = DEFAULT_STACK_ID →
        (ev = Event.callback ∨ ev = Event.other) →
        ManagerImpl.calc_show_mode ShowMode.auto st ev = ShowMode.edit) := by
  refine ⟨?_, ?_, ?_, ?_, ?_, ?_⟩
  · intro h1
    simp [ManagerImpl.calc_show_mode, h1]
  · intro h1 h2
    simp [ManagerImpl.calc_show_mode, h1, h2]
  · intro h1 h2 h3
    simp [ManagerImpl.calc_show_mode, h1, h2, h3]
  · intro g h1 h2 h3 h4
    simp [ManagerImpl.calc_show_mode, h1, h2, h3, h4]
  · intro g h1 h2 h3 h4
    have h5 : ¬(some g = st.last_income_media_group_id) := fun hh => h4 hh.symm
    simp [ManagerImpl.calc_show_mode, h1, h2, h3, h5]
  · intro h1 h2 h3
    rcases h3 with h3 | h3 <;> simp [ManagerImpl.calc_show_mode, h1, h2, h3]

/-- Claim C1 witness: concrete stacks and events exercising three branches of
the decision table. -/
theorem calc_show_mode_auto_witness :
    ManagerImpl.calc_show_mode ShowMode.auto stackKbd Event.other
        = ShowMode.delete_and_send ∧
    ManagerImpl.calc_show_mode ShowMode.auto stackNamed Event.other = ShowMode.edit ∧
    ManagerImpl.calc_show_mode ShowMode.auto {} (Event.message none) = ShowMode.send :=
  ⟨(calc_show_mode_auto stackKbd Event.other).1 rfl,
   (calc_show_mode_auto stackNamed Event.other).2.1 rfl (by decide),
   (calc_show_mode_auto {} (Event.message none)).2.2.1 rfl rfl rfl⟩

/-- Claim C6: with a current context, `switch_to` fails with a validation
error exactly when the target state's group differs from the current
context's; in the same-group case it changes only the context's `state` field
(same id, same data), records the pending show mode, and never touches the
stack. -/
theorem switch_to_same_group_only (state : DState) (sm : Option ShowMode)
    (w : Nav.World) (ctx : Nav.Context)
    (hd : w.disabled = false) (hc : w.context = some ctx) :
    (ctx.state.group ≠ state.group →
        ManagerImpl.switch_to state sm w = Except.error (Nav.Err.value_error, w)) ∧
    (ctx.state.group = state.group →
        ManagerImpl.switch_to state sm w = Except.ok
          { w with show_mode := sm.getD w.show_mode,
                   context := some { ctx with state := state } }) := by
  constructor
  · intro hne
    simp [ManagerImpl.switch_to, hd, hc, hne]
  · intro heq
    simp [ManagerImpl.switch_to, hd, hc, heq]

/-- Claim C6 witness: same-group switch `sA → sB` on a concrete world. -/
theorem switch_to_same_group_only_witness :
    ManagerImpl.switch_to sB none wA = Except.ok
      { wA with show_mode := (none : Option ShowMode).getD wA.show_mode,
                context := some { ctxA with state := sB } } :=
  (switch_to_same_group_only sB none wA ctxA rfl rfl).2 rfl

/-- Claim C4 counterexample: with the pending mode NO_UPDATE and an explicit
SEND argument, `show` returns without any delivery call (the explicit argument
does not win over the pending NO_UPDATE); conversely, with pending SEND and an
explicit NO_UPDATE argument, the delivery call is made (with mode NO_UPDATE),
although the claim says a NO_UPDATE effective mode means no delivery call at
all. -/
theorem show_no_update_override_cex :
    ManagerImpl.show_world none false (some ShowMode.send) wNU = Except.ok wNU ∧
    ManagerImpl.show_world none false (some ShowMode.no_update) wSend =
      Except.ok wSendAfter := by
  constructor <;> rfl

/-- Claim C4 (amended): `show` short-circuits with no delivery call whenever
the previously set pending mode is NO_UPDATE, regardless of the explicit
argument; otherwise exactly one delivery call is made, whose mode is the
explicit argument when given (else the pending mode), with AUTO resolved by
`_calc_show_mode` (which itself returns the pending mode when that is not
AUTO) — in particular an explicit NO_UPDATE argument does not suppress the
delivery call. -/
theorem show_resolution (sent : Option Nav.SentMessage) (kbd : Bool)
    (arg : Option ShowMode) (w : Nav.World)
    (hd : w.disabled = false)
    (hkb : w.stack.id = DEFAULT_STACK_ID ∨ kbd = false) :
    (w.show_mode = ShowMode.no_update →
        ManagerImpl.show_world sent kbd arg w = Except.ok w) ∧
    (w.show_mode ≠ ShowMode.no_update →
        isOkRes (ManagerImpl.show_world sent kbd arg w) = true ∧
        (resultWorld (ManagerImpl.show_world sent kbd arg w)).show_message_calls
          = w.show_message_calls + 1 ∧
        (resultWorld (ManagerImpl.show_world sent kbd arg w)).last_delivery_mode
          = some (if arg.getD w.show_mode = ShowMode.auto then
              ManagerImpl.calc_show_mode w.show_mode w.stack w.event
            else arg.getD w.show_mode)) := by
  constructor
  · intro hnu
    simp [ManagerImpl.show_world, hd, hnu]
  · intro hnu
    have hkb2 : ¬(w.stack.id ≠ DEFAULT_STACK_ID ∧ kbd) := by
      rcases hkb with hkb | hkb <;> simp [hkb]
    simp only [ManagerImpl.show_world, hd, hnu, hkb2, Bool.false_eq_true, if_false,
      ite_false, if_neg]
    cases sent with
    | none =>
        cases hev : w.event with
        | message mgid => simp [isOkRes, resultWorld]
        | callback => simp [isOkRes, resultWorld]
        | other => simp [isOkRes, resultWorld]
    | some m =>
        cases hev : w.event with
        | message mgid => simp [isOkRes, resultWorld, ManagerImpl.save_last_message]
        | callback => simp [isOkRes, resultWorld, ManagerImpl.save_last_message]
        | other => simp [isOkRes, resultWorld, ManagerImpl.save_last_message]

/-- Claim C4 amended-theorem witness: pending SEND with an explicit EDIT
argument on a concrete world: one delivery call with mode EDIT. -/
theorem show_resolution_witness :
    isOkRes (ManagerImpl.show_world none false (some ShowMode.edit) wSend) = true ∧
    (resultWorld (ManagerImpl.show_world none false (some ShowMode.edit) wSend)).show_message_calls
      = wSend.show_message_calls + 1 ∧
    (resultWorld (ManagerImpl.show_world none false (some ShowMode.edit) wSend)).last_delivery_mode
      = some (if (some ShowMode.edit).getD wSend.show_mode = ShowMode.auto then
          ManagerImpl.calc_show_mode wSend.show_mode wSend.stack wSend.event
        else (some ShowMode.edit).getD wSend.show_mode) :=
  (show_resolution none false (some ShowMode.edit) wSend rfl (Or.inl rfl)).2 (by decide)

/-- Claim C8 counterexample: on a closed manager, `answer_callback` (for a
callback-triggered manager) fails with the attribute error coming from the
deleted `_event` reference, not with the distinct "used after close"
(background-access) condition — refuting "every subsequent operation fails
with the used-after-close error". -/
theorem closed_answer_callback_cex :
    ManagerImpl.close_manager wLive = Except.ok (closedWorld wLive) ∧
    ManagerImpl.answer_callback (closedWorld wLive) =
      Except.error (Nav.Err.attribute_error, closedWorld wLive) ∧
    Nav.Err.attribute_error ≠ Nav.Err.incorrect_background := by
  refine ⟨rfl, rfl, by decide⟩

/-- Claim C8 (amended): `close_manager` drops the instance's references to the
event payload and collaborators and sets the disabled guard; afterwards the
operations that consult the guard (`start`, `switch_to`, `show`, `reset_stack`,
a second `close_manager`) fail with the distinct used-after-close condition,
while `answer_callback` on a callback-triggered manager reads the deleted
event attribute first and fails with an attribute error instead. -/
theorem close_manager_behavior (w : Nav.World) (hd : w.disabled = false) :
    ManagerImpl.close_manager w = Except.ok (closedWorld w) ∧
    (closedWorld w).hasEvent = false ∧
    (closedWorld w).hasData = false ∧
    (closedWorld w).hasCollabs = false ∧
    (closedWorld w).disabled = true ∧
    (∀ reg hook sent kbd st d m sm,
        ManagerImpl.start reg hook sent kbd st d m sm (closedWorld w) =
          Except.error (Nav.Err.incorrect_background, closedWorld w)) ∧
    (∀ st sm, ManagerImpl.switch_to st sm (closedWorld w) =
        Except.error (Nav.Err.incorrect_background, closedWorld w)) ∧
    (∀ sent kbd sm, ManagerImpl.show_world sent kbd sm (closedWorld w) =
        Except.error (Nav.Err.incorrect_background, closedWorld w)) ∧
    (∀ rk, ManagerImpl.reset_stack rk (closedWorld w) =
        Except.error (Nav.Err.incorrect_background, closedWorld w)) ∧
    (ManagerImpl.close_manager (closedWorld w) =
        Except.error (Nav.Err.incorrect_background, closedWorld w)) ∧
    (w.event = Event.callback → ManagerImpl.answer_callback (closedWorld w) =
        Except.error (Nav.Err.attribute_error, closedWorld w)) := by
  refine ⟨?_, rfl, rfl, rfl, rfl, ?_, ?_, ?_, ?_, ?_, ?_⟩
  · simp [ManagerImpl.close_manager, hd, closedWorld]
  · intro reg hook sent kbd st d m sm
    simp [ManagerImpl.start, closedWorld]
  · intro st sm
    simp [ManagerImpl.switch_to, closedWorld]
  · intro sent kbd sm
    simp [ManagerImpl.show_world, closedWorld]
  · intro rk
    simp [ManagerImpl.reset_stack, closedWorld]
  · simp [ManagerImpl.close_manager, closedWorld]
  · intro hev
    simp [ManagerImpl.answer_callback, closedWorld]

/-- Claim C8 amended-theorem witness: the concrete live callback-event
manager. -/
theorem close_manager_behavior_witness :
    ManagerImpl.close_manager wLive = Except.ok (closedWorld wLive) ∧
    ManagerImpl.switch_to sA none (closedWorld wLive) =
      Except.error (Nav.Err.incorrect_background, closedWorld wLive) ∧
    ManagerImpl.answer_callback (closedWorld wLive) =
      Except.error (Nav.Err.attribute_error, closedWorld wLive) :=
  ⟨(close_manager_behavior wLive rfl).1,
   (close_manager_behavior wLive rfl).2.2.2.2.2.2.1 sA none,
   (close_manager_behavior wLive rfl).2.2.2.2.2.2.2.2.2.2 rfl⟩

theorem listIndex_lt_length [DecidableEq α] (l : List α) (x : α) (i : Nat)
    (hi : listIndex l x = some i) : i < l.length := by
  induction l generalizing i with
  | nil => exact absurd hi (by simp [listIndex])
  | cons a rest ih =>
      rw [List.length_cons]
      by_cases ha : a = x
      · rw [listIndex, if_pos ha] at hi
        have h0 : 0 = i := Option.some.inj hi
        omega
      · rw [listIndex, if_neg ha] at hi
        cases hj : listIndex rest x with
        | none =>
            rw [hj] at hi
            exact absurd hi (by simp)
        | some j =>
            rw [hj] at hi
            have hji : j + 1 = i := Option.some.inj hi
            have := ih j hj
            omega

theorem list_get_last (l : List α) (hne : l ≠ []) :
    l.get? (l.length - 1) = l.getLast? := by
  induction l with
  | nil => exact absurd rfl hne
  | cons a rest ih =>
      cases rest with
      | nil => rfl
      | cons b t =>
          have h1 : (a :: b :: t).length - 1 = (b :: t).length := by
            simp [List.length_cons]
          rw [h1]
          have h2 : (a :: b :: t).get? (b :: t).length = (b :: t).get? ((b :: t).length - 1) := by
            simp [List.get?_cons_succ]
          rw [h2, ih (by simp), List.getLast?_cons_cons]

theorem getLast?_mem (l : List α) (a : α) (h : l.getLast? = some a) : a ∈ l := by
  induction l with
  | nil => exact absurd h (by simp)
  | cons x rest ih =>
      cases rest with
      | nil =>
          have hxa : x = a := Option.some.inj h
          simp [hxa]
      | cons b t =>
          rw [List.getLast?_cons_cons] at h
          exact List.mem_cons_of_mem x (ih h)

theorem pyGetItem_at_len (l : List α) : pyGetItem l (l.length : Int) = none := by
  have h1 : ¬((l.length : Int) < 0) := by omega
  have h2 : ¬((0 : Int) ≤ (l.length : Int) ∧ (l.length : Int) < (l.length : Int)) := by omega
  simp [pyGetItem, h1, h2]

theorem pyGetItem_neg_one (l : List α) (hne : l ≠ []) :
    pyGetItem l (-1) = l.getLast? := by
  have hlen : 0 < l.length := List.length_pos.mpr hne
  have h1 : (-1 : Int) < 0 := by omega
  have h2 : (0 : Int) ≤ -1 + (l.length : Int) ∧ -1 + (l.length : Int) < (l.length : Int) := by
    constructor <;> omega
  have h3 : ((-1 : Int) + (l.length : Int)).toNat = l.length - 1 := by omega
  simp only [pyGetItem, h1, if_pos, h2, if_true, h3]
  exact list_get_last l hne

/-- Claim C3 counterexample: `back` from the FIRST state of a two-state dialog
does not fail — Python's negative indexing makes `states[-1]` the last state,
so the call succeeds and switches the context to the dialog's last state,
refuting "back at the first state fails with an index-error and leaves the
context unmodified". -/
theorem back_first_wraps_cex :
    ManagerImpl.back regAB none wA =
      Except.ok { wA with context := some { ctxA with state := sB } } := by
  rfl

/-- Claim C3 (amended): `next` at the last state of the dialog's ordered state
list fails with an index error and leaves the world (hence the context's
state, id and data) unmodified; `back` at the first state does NOT fail: by
Python negative indexing it resolves `states[-1]`, i.e. the dialog's last
state, and switches the context there (id and data unchanged). -/
theorem next_last_back_first (reg : Nav.Registry) (w : Nav.World) (dlg : Nav.Dialog)
    (ctx : Nav.Context) (sm : Option ShowMode)
    (hd : w.disabled = false) (hc : w.context = some ctx)
    (hf : Registry.find_dialog reg ctx.state = some dlg)
    (hg : ∀ s ∈ dlg.states, s.group = ctx.state.group) :
    (listIndex dlg.states ctx.state = some (dlg.states.length - 1) →
        ManagerImpl.next reg sm w = Except.error (Nav.Err.index_error, w)) ∧
    (listIndex dlg.states ctx.state = some 0 →
        ∃ s, dlg.states.getLast? = some s ∧
          ManagerImpl.back reg sm w = Except.ok
            { w with show_mode := sm.getD w.show_mode,
                     context := some { ctx with state := s } }) := by
  constructor
  · intro hi
    have hlt := listIndex_lt_length dlg.states ctx.state _ hi
    have hlen : 1 ≤ dlg.states.length := by omega
    have h1 : ((dlg.states.length - 1 : Nat) : Int) + 1 = (dlg.states.length : Int) := by
      omega
    have hnone : pyGetItem dlg.states (((dlg.states.length - 1 : Nat) : Int) + 1) = none := by
      rw [h1]
      exact pyGetItem_at_len dlg.states
    simp [ManagerImpl.next, hd, hc, hf, hi, hnone]
  · intro hi
    have hlt := listIndex_lt_length dlg.states ctx.state _ hi
    have hne : dlg.states ≠ [] := by
      intro hh
      rw [hh] at hlt
      simp at hlt
    obtain ⟨s, hs⟩ : ∃ s, dlg.states.getLast? = some s := by
      cases hl : dlg.states.getLast? with
      | none =>
          rw [List.getLast?_eq_none_iff] at hl
          exact absurd hl hne
      | some s => exact ⟨s, rfl⟩
    have hsome : pyGetItem dlg.states (-1 : Int) = some s := by
      rw [pyGetItem_neg_one dlg.states hne, hs]
    have hgroup : ctx.state.group = s.group :=
      (hg s (getLast?_mem dlg.states s hs)).symm
    refine ⟨s, hs, ?_⟩
    have hsw : ManagerImpl.switch_to s sm w = Except.ok
        { w with show_mode := sm.getD w.show_mode,
                 context := some { ctx with state := s } } := by
      simp [ManagerImpl.switch_to, hd, hc, hgroup]
    simp [ManagerImpl.back, hd, hc, hf, hi, hsome, hsw]

/-- Claim C3 amended-theorem witness: `next` from the last state `sB` of the
two-state dialog fails with an index error and leaves the world untouched. -/
theorem next_last_back_first_witness :
    ManagerImpl.next regAB none wLast = Except.error (Nav.Err.index_error, wLast) :=
  (next_last_back_first regAB wLast dlgAB ctxB none rfl rfl rfl
    (by intro s hs; fin_cases hs <;> rfl)).1 (by rfl)

/-- Claim C7: `bg` with `stack_id` omitted: when the resolved target user and
chat equal the current event's, the handle carries the current stack's id and
the current context's intent id (when a context exists, `none` otherwise);
when the target user or chat differs, it carries the reserved default-stack id
and no intent id; and with no chat bound to the event and no explicit
`chat_id`, the call fails with an argument error. -/
theorem bg_stack_resolution (w : Nav.World) (uid cid : Option Int)
    (hd : w.disabled = false) (he : w.hasEvent = true) (hda : w.hasData = true) :
    (∀ c, w.event_chat = some c → (uid = none ∨ uid = some w.event_user_id) →
        (cid = none ∨ cid = some c) →
        ManagerImpl.bg w uid cid none = Except.ok
          { user := (true, w.event_user_id), chat := (true, c),
            intent_id := w.context.map Nav.Context.id, stack_id := w.stack.id }) ∧
    (∀ c u, w.event_chat = some c → uid = some u → u ≠ w.event_user_id →
        ManagerImpl.bg w uid none none = Except.ok
          { user := (false, u), chat := (true, c),
            intent_id := none, stack_id := DEFAULT_STACK_ID }) ∧
    (∀ c c2, w.event_chat = some c → cid = some c2 → c2 ≠ c →
        ManagerImpl.bg w none cid none = Except.ok
          { user := (true, w.event_user_id), chat := (false, c2),
            intent_id := none, stack_id := DEFAULT_STACK_ID }) ∧
    (w.event_chat = none → cid = none →
        ManagerImpl.bg w uid cid none = Except.error (Nav.Err.value_error, w)) := by
  refine ⟨?_, ?_, ?_, ?_⟩
  · intro c hec huid hcid
    have hu : ManagerImpl.get_fake_user w uid = Except.ok (true, w.event_user_id) := by
      rcases huid with h | h <;>
        simp [ManagerImpl.get_fake_user, he, h]
    have hch : ManagerImpl.get_fake_chat w cid = Except.ok (true, c) := by
      rcases hcid with h | h <;>
        simp [ManagerImpl.get_fake_chat, hda, hec, h]
    have hsame : ManagerImpl.is_same_chat w (true, w.event_user_id) (true, c) = true := by
      simp [ManagerImpl.is_same_chat, hec]
    simp [ManagerImpl.bg, hu, hch, hsame, hd]
  · intro c u hec huid hu
    have hfu : ManagerImpl.get_fake_user w (some u) = Except.ok (false, u) := by
      simp [ManagerImpl.get_fake_user, he, hu]
    have hch : ManagerImpl.get_fake_chat w none = Except.ok (true, c) := by
      simp [ManagerImpl.get_fake_chat, hda, hec]
    have hsame : ManagerImpl.is_same_chat w (false, u) (true, c) = false := by
      simp [ManagerImpl.is_same_chat, hec, hu]
    rw [huid]
    simp [ManagerImpl.bg, hfu, hch, hsame]
  · intro c c2 hec hcid hc2
    have hfu : ManagerImpl.get_fake_user w none = Except.ok (true, w.event_user_id) := by
      simp [ManagerImpl.get_fake_user, he]
    have hch : ManagerImpl.get_fake_chat w (some c2) = Except.ok (false, c2) := by
      simp [ManagerImpl.get_fake_chat, hda, hec, hc2]
    have hsame : ManagerImpl.is_same_chat w (true, w.event_user_id) (false, c2) = false := by
      simp [ManagerImpl.is_same_chat, hec, hc2]
    rw [hcid]
    simp [ManagerImpl.bg, hfu, hch, hsame]
  · intro hec hcid
    have hch : ManagerImpl.get_fake_chat w none = Except.error (Nav.Err.value_error, w) := by
      simp [ManagerImpl.get_fake_chat, hda, hec]
    rw [hcid]
    cases huid : uid with
    | none =>
        simp [ManagerImpl.bg, ManagerImpl.get_fake_user, he, hch]
    | some u =>
        by_cases hu : u = w.event_user_id <;>
          simp [ManagerImpl.bg, ManagerImpl.get_fake_user, he, hu, hch]

/-- Claim C7 witness: the concrete world `wBg` (event user 7, chat 10, named
stack, one open context) with all identifiers omitted: the handle reuses the
current stack id and the context's intent id. -/
theorem bg_stack_resolution_witness :
    ManagerImpl.bg wBg none none none = Except.ok
      { user := (true, wBg.event_user_id), chat := (true, 10),
        intent_id := wBg.context.map Nav.Context.id, stack_id := wBg.stack.id } :=
  (bg_stack_resolution wBg none none rfl rfl rfl).1 10 rfl (Or.inl rfl) (Or.inl rfl)

/-- Claim C10: `start` assigns the pending show mode from its `show_mode`
argument before validating the `mode` argument, so a `start` that fails with
the unknown-start-mode error, or with the policy error for starting on top of
an EXCLUSIVE dialog, leaves the stack and the current context unchanged but
leaves the pending show mode already overwritten with the supplied value. -/
theorem start_show_mode_before_validation (reg : Nav.Registry)
    (hook : Nav.World → Nav.World) (sent : Option Nav.SentMessage) (kbd : Bool)
    (state : DState) (data : Option String) (smv : ShowMode)
    (w : Nav.World) (ctx : Nav.Context) (d : Nav.Dialog)
    (hd : w.disabled = false) :
    (ManagerImpl.start reg hook sent kbd state data StartMode.other (some smv) w =
        Except.error (Nav.Err.value_error, { w with show_mode := smv })) ∧
    (w.stack.intents ≠ [] → w.context = some ctx →
        Registry.find_dialog reg ctx.state = some d →
        d.launch_mode = LaunchMode.exclusive →
        ManagerImpl.start reg hook sent kbd state data StartMode.normal (some smv) w =
          Except.error (Nav.Err.value_error, { w with show_mode := smv })) := by
  constructor
  · simp [ManagerImpl.start, hd]
  · intro hne hc hf hlm
    have hold : ManagerImpl.old_dialog reg { w with disabled := false, show_mode := smv } =
        Except.ok (some (ctx.state.group, d)) := by
      simp [ManagerImpl.old_dialog, List.isEmpty_iff, hne, hc, hf]
    simp [ManagerImpl.start, hd, ManagerImpl.start_normal, hold, hlm]

/-- Claim C10 witness: starting `sR` in an unknown mode, and starting it in
NORMAL mode on top of the EXCLUSIVE dialog at `sA`, both fail while the
pending show mode is already SEND. -/
theorem start_show_mode_before_validation_witness :
    (ManagerImpl.start regExcl id none false sR none StartMode.other (some ShowMode.send) wA =
        Except.error (Nav.Err.value_error, { wA with show_mode := ShowMode.send })) ∧
    (ManagerImpl.start regExcl id none false sR none StartMode.normal (some ShowMode.send) wA =
        Except.error (Nav.Err.value_error, { wA with show_mode := ShowMode.send })) :=
  ⟨(start_show_mode_before_validation regExcl id none false sR none ShowMode.send
      wA ctxA dlgExcl rfl).1,
   (start_show_mode_before_validation regExcl id none false sR none ShowMode.send
      wA ctxA dlgExcl rfl).2 (by decide) rfl rfl rfl⟩

theorem show_world_preserves (sent : Option Nav.SentMessage) (kbd : Bool)
    (sm : Option ShowMode) (w : Nav.World) :
    (resultWorld (ManagerImpl.show_world sent kbd sm w)).stack.intents = w.stack.intents ∧
    (resultWorld (ManagerImpl.show_world sent kbd sm w)).remove_kbd_calls
      = w.remove_kbd_calls := by
  unfold ManagerImpl.show_world
  split
  · simp [resultWorld]
  · split
    · simp [resultWorld]
    · split
      · simp [resultWorld]
      · cases sent <;> cases hev : w.event <;>
          simp [resultWorld, ManagerImpl.save_last_message, hev]

theorem start_finish_preserves (hook : Nav.World → Nav.World)
    (sent : Option Nav.SentMessage) (kbd : Bool) (c : Nav.Context) (w5 : Nav.World)
    (hhook : ∀ v, (hook v).stack.intents = v.stack.intents ∧ (hook v).context = v.context ∧
        (hook v).remove_kbd_calls = v.remove_kbd_calls ∧ (hook v).disabled = v.disabled) :
    (resultWorld (ManagerImpl.start_finish hook sent kbd c w5)).stack.intents
      = w5.stack.intents ∧
    (resultWorld (ManagerImpl.start_finish hook sent kbd c w5)).remove_kbd_calls
      = w5.remove_kbd_calls := by
  obtain ⟨h1, h2, h3, _⟩ := hhook w5
  unfold ManagerImpl.start_finish
  cases hc5 : w5.context with
  | none =>
      simp only [h2, hc5]
      simp [resultWorld, h1, h3]
  | some c2 =>
      simp only [h2, hc5]
      by_cases hid : c.id = c2.id
      · rw [if_pos hid]
        have hs := show_world_preserves sent kbd none (hook w5)
        exact ⟨hs.1.trans h1, hs.2.trans h3⟩
      · rw [if_neg hid]
        simp [resultWorld, h1, h3]

theorem start_core_excl_root (reg : Nav.Registry) (hook : Nav.World → Nav.World)
    (sent : Option Nav.SentMessage) (kbd : Bool) (state : DState) (data : Option String)
    (og : Option (String × Nav.Dialog)) (v : Nav.World) (dlg : Nav.Dialog)
    (hd : v.disabled = false)
    (hf : Registry.find_dialog reg state = some dlg)
    (hlm : dlg.launch_mode = LaunchMode.exclusive ∨ dlg.launch_mode = LaunchMode.root)
    (hhook : ∀ u, (hook u).stack.intents = u.stack.intents ∧ (hook u).context = u.context ∧
        (hook u).remove_kbd_calls = u.remove_kbd_calls ∧ (hook u).disabled = u.disabled) :
    (resultWorld (ManagerImpl.start_normal_core reg hook sent kbd state data og v)
      ).stack.intents.length = 1 ∧
    (resultWorld (ManagerImpl.start_normal_core reg hook sent kbd state data og v)
      ).remove_kbd_calls = v.remove_kbd_calls := by
  have hnst : ¬(dlg.launch_mode = LaunchMode.single_top ∧
      og.map Prod.fst = some state.group) := by
    rintro ⟨hh, -⟩
    rcases hlm with h | h <;> rw [h] at hh <;> exact LaunchMode.noConfusion hh
  have hreset : ManagerImpl.reset_stack false v = Except.ok
      { v with storage := v.stack.intents.foldl
                  (fun st i => st.filter (fun p => p.1 ≠ i)) v.storage,
               stack := { v.stack with intents := [] },
               stack_saves := v.stack_saves + 1,
               context := none } := by
    simp [ManagerImpl.reset_stack, hd]
  simp only [ManagerImpl.start_normal_core, hf, if_pos hlm, hreset, if_neg hnst]
  constructor
  · rw [(start_finish_preserves hook sent kbd _ _ hhook).1]
    rfl
  · rw [(start_finish_preserves hook sent kbd _ _ hhook).2]

theorem start_normal_excl_root (reg : Nav.Registry) (hook : Nav.World → Nav.World)
    (sent : Option Nav.SentMessage) (kbd : Bool) (state : DState) (data : Option String)
    (v : Nav.World) (dlg : Nav.Dialog)
    (hd : v.disabled = false)
    (hf : Registry.find_dialog reg state = some dlg)
    (hlm : dlg.launch_mode = LaunchMode.exclusive ∨ dlg.launch_mode = LaunchMode.root)
    (hctx : v.stack.intents ≠ [] → ∃ ctx dctx, v.context = some ctx ∧
        Registry.find_dialog reg ctx.state = some dctx ∧
        dctx.launch_mode ≠ LaunchMode.exclusive)
    (hhook : ∀ u, (hook u).stack.intents = u.stack.intents ∧ (hook u).context = u.context ∧
        (hook u).remove_kbd_calls = u.remove_kbd_calls ∧ (hook u).disabled = u.disabled) :
    (resultWorld (ManagerImpl.start_normal reg hook sent kbd state data v)
      ).stack.intents.length = 1 ∧
    (resultWorld (ManagerImpl.start_normal reg hook sent kbd state data v)
      ).remove_kbd_calls = v.remove_kbd_calls := by
  cases hemp : v.stack.intents with
  | nil =>
      have hold : ManagerImpl.old_dialog reg v = Except.ok none := by
        simp [ManagerImpl.old_dialog, hemp]
      have hred : ManagerImpl.start_normal reg hook sent kbd state data v =
          ManagerImpl.start_normal_core reg hook sent kbd state data none v := by
        simp [ManagerImpl.start_normal, hd, hold]
      rw [hred]
      exact start_core_excl_root reg hook sent kbd state data none v dlg hd hf hlm hhook
  | cons a as =>
      obtain ⟨ctx, dctx, hc, hfc, hnexc⟩ := hctx (by rw [hemp]; simp)
      have hold : ManagerImpl.old_dialog reg v =
          Except.ok (some (ctx.state.group, dctx)) := by
        simp [ManagerImpl.old_dialog, hemp, hc, hfc]
      have hred : ManagerImpl.start_normal reg hook sent kbd state data v =
          ManagerImpl.start_normal_core reg hook sent kbd state data
            (some (ctx.state.group, dctx)) v := by
        simp [ManagerImpl.start_normal, hd, hold, hnexc]
      rw [hred]
      exact start_core_excl_root reg hook sent kbd state data _ v dlg hd hf hlm hhook

/-- Claim C5: starting a dialog whose launch mode is EXCLUSIVE or ROOT, in
start mode NORMAL, with an entry hook that does not itself navigate (it
preserves the stack history, the current context, the disabled flag and the
keyboard-removal count), yields a stack of depth exactly 1 regardless of the
prior depth, and the stack clearing in this path never requests removal of the
outbound keyboard. -/
theorem start_exclusive_root_depth_one (reg : Nav.Registry)
    (hook : Nav.World → Nav.World) (sent : Option Nav.SentMessage) (kbd : Bool)
    (state : DState) (data : Option String) (sm : Option ShowMode)
    (w : Nav.World) (dlg : Nav.Dialog)
    (hd : w.disabled = false)
    (hf : Registry.find_dialog reg state = some dlg)
    (hlm : dlg.launch_mode = LaunchMode.exclusive ∨ dlg.launch_mode = LaunchMode.root)
    (hctx : w.stack.intents ≠ [] → ∃ ctx dctx, w.context = some ctx ∧
        Registry.find_dialog reg ctx.state = some dctx ∧
        dctx.launch_mode ≠ LaunchMode.exclusive)
    (hhook : ∀ u, (hook u).stack.intents = u.stack.intents ∧ (hook u).context = u.context ∧
        (hook u).remove_kbd_calls = u.remove_kbd_calls ∧ (hook u).disabled = u.disabled) :
    (resultWorld (ManagerImpl.start reg hook sent kbd state data StartMode.normal sm w)
      ).stack.intents.length = 1 ∧
    (resultWorld (ManagerImpl.start reg hook sent kbd state data StartMode.normal sm w)
      ).remove_kbd_calls = w.remove_kbd_calls := by
  have hred : ManagerImpl.start reg hook sent kbd state data StartMode.normal sm w =
      ManagerImpl.start_normal reg hook sent kbd state data
        { w with show_mode := sm.getD w.show_mode } := by
    simp [ManagerImpl.start, hd]
  rw [hred]
  exact start_normal_excl_root reg hook sent kbd state data
    { w with show_mode := sm.getD w.show_mode } dlg hd hf hlm hctx hhook

/-- Claim C5 witness: starting the ROOT dialog `sR` over a two-frame stack
(with identity entry hook) yields depth 1 and no keyboard-removal request. -/
theorem start_exclusive_root_depth_one_witness :
    (resultWorld (ManagerImpl.start regRoot id none false sR none StartMode.normal none w5)
      ).stack.intents.length = 1 ∧
    (resultWorld (ManagerImpl.start regRoot id none false sR none StartMode.normal none w5)
      ).remove_kbd_calls = w5.remove_kbd_calls :=
  start_exclusive_root_depth_one regRoot id none false sR none none w5 dlgRoot
    rfl rfl (Or.inr rfl)
    (fun _ => ⟨ctx1, dlgAB, rfl, rfl, by decide⟩)
    (fun _ => ⟨rfl, rfl, rfl, rfl⟩)

end AiogramDialog
